import Mathlib

/-!
Shallow embedding of `backend/app.py` of Tone-Translator-for-Professionals.

The program is a FastAPI relay with two request handlers:
  - `convert_tone_with_gemini_stream` / `convert_api` (`POST /api/convert`):
    builds a fixed Korean instructional prompt around the request fields
    `original_text` and `style`, calls the Gemini streaming API, and yields
    the text of each chunk when it is non-empty; the whole body (model
    construction, stream initiation and the chunk loop) sits inside one
    `try: ... except Exception:` whose handler logs the error and yields the
    single Korean fallback message.
  - `extract_keywords_with_ollama` / `keywords_api` (`POST /api/keywords`):
    returns the empty string without contacting the provider when the text
    strips to empty, otherwise sends one chat request to the shared ollama
    client and returns the stripped message content of the response; no
    exception handling anywhere on this path.
Module initialization reads `GEMINI_API_KEY` from the environment and raises
`ValueError` when it is falsy (absent or empty).

The external providers are modelled as oracles passed in as parameters: the
Gemini stream is a list of events (a chunk with a text field, or an
exception carrying a message), keyed by the prompt string; the ollama chat
call is a function from the prompt to `Except ε OllamaChatResponse`, where
`Except.error e` models the awaited call raising the exception `e`.  The
Python truthiness test `if chunk.text:` on a string is `text ≠ ""`, and the
parameterless `.strip()` method is `strip` below (drop whitespace from both
ends of the character list).
-/

namespace ToneTranslator

/-- Request body model of `POST /api/convert` (`TextRequest` in the source):
the original text and the target style. -/
structure TextRequest where
  original_text : String
  style : String
deriving DecidableEq, Repr

/-- Request body model of `POST /api/keywords` (`KeywordRequest` in the
source): the text to extract keywords from. -/
structure KeywordRequest where
  text : String
deriving DecidableEq, Repr

/-- The JSON object returned by `keywords_api`: a single `keywords` field. -/
structure KeywordsResponse where
  keywords : String
deriving DecidableEq, Repr

/-- The message object of an ollama chat response (the `message` entry of the
response dictionary). -/
structure OllamaMessage where
  role : String
  content : String
deriving DecidableEq, Repr

/-- An ollama chat response, of which the code reads only the `content` field
of the `message` entry. -/
structure OllamaChatResponse where
  message : OllamaMessage
deriving DecidableEq, Repr

/-- Model of the parameterless Python `.strip()` method: remove whitespace
characters from both ends of the string. -/
def strip (s : String) : String :=
  ⟨((s.data.dropWhile Char.isWhitespace).reverse.dropWhile Char.isWhitespace).reverse⟩

/-- Constant part of the Gemini prompt before the first `style` hole. -/
def gemini_prompt_part1 : String :=
  "[역할]\n당신은 뛰어난 비즈니스 커뮤니케이션 전문가입니다. 사용자의 평상시 말투를 비즈니스 상황에 적합한 톤으로 변환하는 임무를 맡고 있습니다.\n\n[지시]\n1. 사용자가 입력한 \x27원본 텍스트\x27를 분석하여 핵심 의미를 파악합니다.\n2. 요청된 \x27"

/-- Constant part of the Gemini prompt between the first and second `style`
holes. -/
def gemini_prompt_part2 : String :=
  "\x27에 맞춰 문장을 자연스럽고 전문적인 비즈니스 어투로 변환합니다.\n3. 변환된 문장 외에 다른 설명이나 인사말을 절대 추가하지 마세요.\n\n[변환 예시]\n* 스타일: 정중하고 요청하는 어투\n* 원본: 이거 오늘까지 해주세요.\n* 변환: 혹시 괜찮으시다면, 이 업무를 오늘까지 마무리해 주실 수 있을까요?\n\n* 스타일: 정중하고 요청하는 어투\n* 원본: 파일 보내주세요~\n* 변환: 안녕하세요, 요청드린 파일 전달 부탁드립니다.\n\n[변환 시작]\n* 스타일: "

/-- Constant part of the Gemini prompt between the second `style` hole and
the `text` hole. -/
def gemini_prompt_part3 : String :=
  "\n* 원본: "

/-- Constant part of the Gemini prompt after the `text` hole. -/
def gemini_prompt_part4 : String :=
  "\n* 변환: "

/-- The f-string `prompt` built inside `convert_tone_with_gemini_stream`,
with the `style` and `text` holes interpolated verbatim. -/
def gemini_prompt (text style : String) : String :=
  s!"[역할]\n당신은 뛰어난 비즈니스 커뮤니케이션 전문가입니다. 사용자의 평상시 말투를 비즈니스 상황에 적합한 톤으로 변환하는 임무를 맡고 있습니다.\n\n[지시]\n1. 사용자가 입력한 \x27원본 텍스트\x27를 분석하여 핵심 의미를 파악합니다.\n2. 요청된 \x27{style}\x27에 맞춰 문장을 자연스럽고 전문적인 비즈니스 어투로 변환합니다.\n3. 변환된 문장 외에 다른 설명이나 인사말을 절대 추가하지 마세요.\n\n[변환 예시]\n* 스타일: 정중하고 요청하는 어투\n* 원본: 이거 오늘까지 해주세요.\n* 변환: 혹시 괜찮으시다면, 이 업무를 오늘까지 마무리해 주실 수 있을까요?\n\n* 스타일: 정중하고 요청하는 어투\n* 원본: 파일 보내주세요~\n* 변환: 안녕하세요, 요청드린 파일 전달 부탁드립니다.\n\n[변환 시작]\n* 스타일: {style}\n* 원본: {text}\n* 변환: "

/-- Constant part of the ollama prompt before the `text` hole. -/
def ollama_prompt_part1 : String :=
  "[역할]\n당신은 주어진 텍스트의 핵심 내용을 파악하여 명사형 키워드로 요약하는 전문가입니다.\n\n[지시]\n1. 아래 \x27텍스트\x27의 핵심 내용을 나타내는 키워드를 5개 이내로 추출하세요.\n2. 각 키워드는 쉼표(,)로 구분된 하나의 목록으로 만드세요.\n3. 키워드 외에 다른 설명이나 줄바꿈을 절대 추가하지 마세요.\n\n[추출 예시]\n* 텍스트: 김 대리님, 어제 논의했던 자료 관련하여, 혹시 오늘 오후 3시까지 전달해 주실 수 있는지 여쭤봅니다.\n* 키워드: 자료 요청, 김 대리, 마감 기한, 사전 검토\n\n[텍스트]\n"

/-- Constant part of the ollama prompt after the `text` hole. -/
def ollama_prompt_part2 : String :=
  "\n\n[키워드]\n"

/-- The f-string `prompt` built inside `extract_keywords_with_ollama`. -/
def ollama_prompt (text : String) : String :=
  ollama_prompt_part1 ++ text ++ ollama_prompt_part2

/-- The fixed fallback fragment yielded by the `except` handler of
`convert_tone_with_gemini_stream`. -/
def fallback_message : String :=
  "오류가 발생했습니다. 서버 로그를 확인해주세요."

/-- The `ValueError` message raised at module initialization when
`GEMINI_API_KEY` is falsy. -/
def missing_key_message : String :=
  "GEMINI_API_KEY 환경 변수가 설정되지 않았습니다, env 파일을 확인"

/-- One observable step of the Gemini provider behind the streamed
`generate_content_async` call: either the stream produces a chunk whose
`text` field is the given string, or the provider raises an exception with
the given message.  An exception as the first event also models a failure
while constructing the `GenerativeModel` or initiating the call, since both
happen inside the same `try` block. -/
inductive GeminiEvent where
  | chunk (text : String)
  | raiseError (msg : String)
deriving DecidableEq, Repr

/-- The body of the `try` block of `convert_tone_with_gemini_stream`: the
`async for` loop yields `chunk.text` whenever it is truthy (non-empty).
Returns the fragments yielded before control leaves the block, paired with
`some msg` when an exception escaped the block (so further events are never
seen) and `none` when the stream ended normally. -/
def stream_body : List GeminiEvent → List String × Option String
  | [] => ([], none)
  | GeminiEvent.chunk t :: rest =>
      let r := stream_body rest
      (if t = "" then r.1 else t :: r.1, r.2)
  | GeminiEvent.raiseError msg :: _ => ([], some msg)

/-- Model of the handler `except Exception as e`: whatever exception the
`try` body raised, the handler appends its own fixed fragments and swallows
the exception (the message reaches only the server log via `print`, which is
not part of the observable response). -/
def catch_all (r : List String × Option String) (handler : List String) :
    List String × Option String :=
  match r.2 with
  | some _ => (r.1 ++ handler, none)
  | none => (r.1, none)

/-- The async generator `convert_tone_with_gemini_stream(text, style)`, run
against a Gemini provider oracle mapping the prompt to its event sequence.
Result: the fragments yielded to the caller, paired with `some msg` iff an
exception escapes the generator. -/
def convert_tone_with_gemini_stream (provider : String → List GeminiEvent)
    (text style : String) : List String × Option String :=
  catch_all (stream_body (provider (gemini_prompt text style))) [fallback_message]

/-- A `StreamingResponse` as produced by `convert_api`: FastAPI sends the
headers (status 200, media type `text/event-stream`) and then iterates the
generator for the body; `escaped` records an exception escaping the body
generator, which would abort the response. -/
structure StreamingResponse where
  status_code : Nat
  media_type : String
  fragments : List String
  escaped : Option String
deriving DecidableEq, Repr

/-- Handler of `POST /api/convert`: wraps the generator in a
`StreamingResponse` with media type `text/event-stream`. -/
def convert_api (provider : String → List GeminiEvent) (request : TextRequest) :
    StreamingResponse :=
  let s := convert_tone_with_gemini_stream provider request.original_text request.style
  { status_code := 200
    media_type := "text/event-stream"
    fragments := s.1
    escaped := s.2 }

/-- The function `extract_keywords_with_ollama(text)`, run against an ollama
oracle mapping the prompt to the outcome of the provider call
(`Except.error e` models the awaited call raising `e`).  Returns the outcome
of the function — `Except.ok` with the returned string, or the propagated
exception — paired with the number of calls made on the shared ollama
client. -/
def extract_keywords_with_ollama {ε : Type}
    (provider : String → Except ε OllamaChatResponse) (text : String) :
    Except ε String × Nat :=
  if strip text = "" then (Except.ok "", 0)
  else ((provider (ollama_prompt text)).map (fun r => strip r.message.content), 1)

/-- Handler of `POST /api/keywords`: awaits `extract_keywords_with_ollama`
(any exception it raises keeps propagating, there is no handler here either)
and wraps the string in a `keywords` field. -/
def keywords_api {ε : Type} (provider : String → Except ε OllamaChatResponse)
    (request : KeywordRequest) : Except ε KeywordsResponse × Nat :=
  let r := extract_keywords_with_ollama provider request.text
  (r.1.map KeywordsResponse.mk, r.2)

/-- Module-level startup check: read `GEMINI_API_KEY` from the environment
and raise `ValueError` when it is falsy.  `none` models an absent variable
(`os.getenv` returns `None`); the Python `not` is also true on the empty
string. -/
def startup_key_check : Option String → Except String String
  | none => Except.error missing_key_message
  | some k => if k = "" then Except.error missing_key_message else Except.ok k

/-- The initialized application: module initialization succeeded with the
configured API key.  No `App` value — hence no servable endpoint — exists
unless `startup_key_check` returned `Except.ok`. -/
structure App where
  gemini_api_key : String
deriving DecidableEq, Repr

/-- Running module initialization from the environment: the application
object exists only if the key check did not raise. -/
def app_startup (env : Option String) : Except String App :=
  (startup_key_check env).map App.mk

/-- The fragments the chunk loop forwards out of a list of chunk texts:
exactly the non-empty ones, in order (the truthiness guard drops falsy
texts). -/
def nonEmptyFragments : List String → List String
  | [] => []
  | t :: rest => if t = "" then nonEmptyFragments rest else t :: nonEmptyFragments rest

/-! Helper lemmas shared by the claim theorems. -/

/-- Running the `try` body over a pure chunk sequence yields the non-empty
texts in order and raises nothing. -/
theorem stream_body_map_chunk (texts : List String) :
    stream_body (texts.map GeminiEvent.chunk) = (nonEmptyFragments texts, none) := by
  induction texts with
  | nil => rfl
  | cons t rest ih =>
      by_cases h : t = "" <;> simp [stream_body, nonEmptyFragments, ih, h]

/-- `nonEmptyFragments` is the filter keeping the non-empty strings. -/
theorem nonEmptyFragments_eq_filter (texts : List String) :
    nonEmptyFragments texts = texts.filter (fun t => t != "") := by
  induction texts with
  | nil => rfl
  | cons t rest ih =>
      by_cases h : t = "" <;> simp [nonEmptyFragments, ih, h]

/-- On a list of non-empty texts, `nonEmptyFragments` is the identity. -/
theorem nonEmptyFragments_eq_self (texts : List String) (h : ∀ t ∈ texts, t ≠ "") :
    nonEmptyFragments texts = texts := by
  induction texts with
  | nil => rfl
  | cons t rest ih =>
      have ht : t ≠ "" := h t (List.mem_cons_self t rest)
      simp [nonEmptyFragments, ht, ih fun x hx => h x (List.mem_cons_of_mem t hx)]

/-- Running the `try` body over chunks followed by a raised exception yields
the non-empty texts of the prefix and escapes with that exception; the
events after the exception are never reached. -/
theorem stream_body_append_raiseError (pre : List String) (msg : String)
    (post : List GeminiEvent) :
    stream_body (pre.map GeminiEvent.chunk ++ GeminiEvent.raiseError msg :: post)
      = (nonEmptyFragments pre, some msg) := by
  induction pre with
  | nil => rfl
  | cons t rest ih =>
      by_cases h : t = "" <;> simp [stream_body, nonEmptyFragments, ih, h]

/-- The catch-all handler never lets an exception escape. -/
theorem catch_all_snd (r : List String × Option String) (handler : List String) :
    (catch_all r handler).2 = none := by
  unfold catch_all
  split <;> rfl

/-! Claim theorems. -/

/-- C1, counterexample: the claim quantifies over every provider fragment
sequence, but on the sequence `["A", "", "B"]` the generator yields
`["A", "B"]`, not the provider sequence itself: the truthy guard drops the
empty fragment. -/
theorem stream_not_identity_on_empty_fragment :
    (convert_tone_with_gemini_stream
        (fun _ => [GeminiEvent.chunk "A", GeminiEvent.chunk "", GeminiEvent.chunk "B"])
        "이거 오늘까지 해주세요." "정중하고 요청하는 어투").1
      ≠ ["A", "", "B"] := by
  decide

/-- C1, amended: for every provider fragment sequence all of whose fragments
are non-empty (such as `["A", "B", "C"]`), the sequence yielded by
`convert_tone_with_gemini_stream` equals the provider sequence in the same
order, and no exception escapes; fragments equal to the empty string are
dropped rather than forwarded. -/
theorem stream_preserves_order_of_nonempty_fragments
    (texts : List String) (h : ∀ t ∈ texts, t ≠ "") (text style : String) :
    convert_tone_with_gemini_stream (fun _ => texts.map GeminiEvent.chunk) text style
      = (texts, none) := by
  simp [convert_tone_with_gemini_stream, stream_body_map_chunk, catch_all,
    nonEmptyFragments_eq_self texts h]

/-- C1, witness: the amended theorem applied to the fragment sequence
`["A", "B", "C"]` of the spec. -/
theorem stream_preserves_order_of_nonempty_fragments_witness :
    (∀ t ∈ (["A", "B", "C"] : List String), t ≠ "") ∧
    convert_tone_with_gemini_stream
        (fun _ => (["A", "B", "C"] : List String).map GeminiEvent.chunk)
        "이거 오늘까지 해주세요." "정중하고 요청하는 어투"
      = (["A", "B", "C"], none) :=
  ⟨by decide,
    stream_preserves_order_of_nonempty_fragments ["A", "B", "C"] (by decide)
      "이거 오늘까지 해주세요." "정중하고 요청하는 어투"⟩

/-- C2: if the provider raises at any point — here after an arbitrary prefix
of chunks, so in particular mid-stream — the generator yields the non-empty
fragments already produced, followed by exactly one fixed fallback fragment,
and then terminates; the exception message `err` appears nowhere in the
result and no exception escapes, so the caller sees no structured error or
failure code. -/
theorem midstream_failure_yields_single_fallback
    (pre : List String) (err : String) (post : List GeminiEvent) (text style : String) :
    convert_tone_with_gemini_stream
        (fun _ => pre.map GeminiEvent.chunk ++ GeminiEvent.raiseError err :: post)
        text style
      = (nonEmptyFragments pre ++ [fallback_message], none) := by
  simp [convert_tone_with_gemini_stream, stream_body_append_raiseError, catch_all]

/-- C3: when the text strips to the empty string, `extract_keywords_with_ollama`
returns the empty string and the number of calls on the shared ollama client
is zero, whatever the provider would have answered. -/
theorem blank_text_returns_empty_without_provider_call {ε : Type}
    (provider : String → Except ε OllamaChatResponse) (text : String)
    (h : strip text = "") :
    extract_keywords_with_ollama provider text = (Except.ok "", 0) := by
  simp [extract_keywords_with_ollama, h]

/-- C3, witness: a whitespace-only text, against a provider double that
would fail if it were ever called. -/
theorem blank_text_returns_empty_without_provider_call_witness :
    strip " \t\n " = "" ∧
    extract_keywords_with_ollama (fun _ => (Except.error () : Except Unit OllamaChatResponse))
        " \t\n "
      = (Except.ok "", 0) :=
  ⟨by decide,
    blank_text_returns_empty_without_provider_call
      (fun _ => (Except.error () : Except Unit OllamaChatResponse)) " \t\n " (by decide)⟩

/-- C4: for text that does not strip to empty, when the provider call
succeeds with response `resp`, the function returns exactly the stripped
message content of `resp`, verbatim otherwise, and the `keywords` field of
the `/api/keywords` response is that same string; one provider call is
made. -/
theorem keywords_returns_trimmed_provider_content {ε : Type}
    (provider : String → Except ε OllamaChatResponse) (text : String)
    (resp : OllamaChatResponse)
    (h1 : strip text ≠ "") (h2 : provider (ollama_prompt text) = Except.ok resp) :
    extract_keywords_with_ollama provider text
        = (Except.ok (strip resp.message.content), 1) ∧
    keywords_api provider { text := text }
        = (Except.ok { keywords := strip resp.message.content }, 1) := by
  constructor <;>
    simp [extract_keywords_with_ollama, keywords_api, h1, h2, Except.map]

/-- C4, witness: a concrete Korean text against a provider double answering
a keyword list padded with whitespace. -/
theorem keywords_returns_trimmed_provider_content_witness :
    strip "이거 오늘까지 해주세요." ≠ "" ∧
    (extract_keywords_with_ollama
        (fun _ => (Except.ok { message := { role := "assistant", content := " 업무 요청, 마감 기한 " } }
            : Except Unit OllamaChatResponse))
        "이거 오늘까지 해주세요."
      = (Except.ok (strip " 업무 요청, 마감 기한 "), 1) ∧
     keywords_api
        (fun _ => (Except.ok { message := { role := "assistant", content := " 업무 요청, 마감 기한 " } }
            : Except Unit OllamaChatResponse))
        { text := "이거 오늘까지 해주세요." }
      = (Except.ok { keywords := strip " 업무 요청, 마감 기한 " }, 1)) :=
  ⟨by decide,
    keywords_returns_trimmed_provider_content
      (fun _ => (Except.ok { message := { role := "assistant", content := " 업무 요청, 마감 기한 " } }
          : Except Unit OllamaChatResponse))
      "이거 오늘까지 해주세요."
      { message := { role := "assistant", content := " 업무 요청, 마감 기한 " } }
      (by decide) rfl⟩

/-- C5, counterexample: a fault raised before the first chunk — the first
provider event is an exception, as when model construction or stream
initiation fails — is caught by the same handler as mid-stream faults: the
response escapes no exception (so no server error reaches the caller) and
its body is the single fallback fragment. -/
theorem setup_failure_is_caught_not_propagated :
    (convert_api (fun _ => [GeminiEvent.raiseError "quota exceeded"])
        { original_text := "이거 오늘까지 해주세요.", style := "정중하고 요청하는 어투" }).escaped
      = none ∧
    (convert_api (fun _ => [GeminiEvent.raiseError "quota exceeded"])
        { original_text := "이거 오늘까지 해주세요.", style := "정중하고 요청하는 어투" }).fragments
      = [fallback_message] :=
  ⟨rfl, rfl⟩

/-- C5, amended: a fault in the streaming setup prior to the first chunk is
caught by the relay exactly like a mid-stream failure — the `try` block
wraps model construction and stream initiation — and is replaced by the
single fallback fragment; it does not surface to the caller as a server
error. -/
theorem setup_failure_replaced_by_fallback
    (err : String) (post : List GeminiEvent) (text style : String) :
    convert_tone_with_gemini_stream (fun _ => GeminiEvent.raiseError err :: post) text style
      = ([fallback_message], none) := by
  simp [convert_tone_with_gemini_stream, stream_body, catch_all]

/-- C6: when the provider call raises `e` on non-blank text, neither
`extract_keywords_with_ollama` nor the `/api/keywords` handler catches it:
the very same exception propagates out of both, after exactly one provider
call, for the web framework to turn into a generic server error. -/
theorem keyword_provider_failure_propagates_unhandled {ε : Type} (e : ε)
    (provider : String → Except ε OllamaChatResponse) (request : KeywordRequest)
    (h1 : strip request.text ≠ "")
    (h2 : provider (ollama_prompt request.text) = Except.error e) :
    extract_keywords_with_ollama provider request.text = (Except.error e, 1) ∧
    keywords_api provider request = (Except.error e, 1) := by
  constructor <;>
    simp [extract_keywords_with_ollama, keywords_api, h1, h2, Except.map]

/-- C6, witness: a concrete request against a provider double that raises. -/
theorem keyword_provider_failure_propagates_unhandled_witness :
    strip "보고서 검토 부탁드립니다" ≠ "" ∧
    (extract_keywords_with_ollama
        (fun _ => (Except.error "connection refused" : Except String OllamaChatResponse))
        "보고서 검토 부탁드립니다"
      = (Except.error "connection refused", 1) ∧
     keywords_api
        (fun _ => (Except.error "connection refused" : Except String OllamaChatResponse))
        { text := "보고서 검토 부탁드립니다" }
      = (Except.error "connection refused", 1)) :=
  ⟨by decide,
    keyword_provider_failure_propagates_unhandled "connection refused"
      (fun _ => (Except.error "connection refused" : Except String OllamaChatResponse))
      { text := "보고서 검토 부탁드립니다" } (by decide) rfl⟩

/-- C7: with the API key absent from the environment, module initialization
raises the `ValueError` with the fixed message, so no initialized
application value exists and no endpoint can serve a request. -/
theorem missing_api_key_fails_startup :
    app_startup none = Except.error missing_key_message := rfl

/-- C8: the outbound Gemini prompt is one fixed instructional template with
`style` and `text` substituted verbatim: it decomposes into constant parts
(independent of the inputs) around the interpolated fields, and therefore
contains `text` and `style` as exact substrings. -/
theorem gemini_prompt_is_fixed_template (text style : String) :
    gemini_prompt text style =
      gemini_prompt_part1 ++ style ++ gemini_prompt_part2 ++ style ++
        gemini_prompt_part3 ++ text ++ gemini_prompt_part4 ∧
    (∃ l r : String, gemini_prompt text style = l ++ text ++ r) ∧
    (∃ l r : String, gemini_prompt text style = l ++ style ++ r) := by
  refine ⟨rfl,
    ⟨gemini_prompt_part1 ++ style ++ gemini_prompt_part2 ++ style ++ gemini_prompt_part3,
      gemini_prompt_part4, rfl⟩,
    ⟨gemini_prompt_part1,
      gemini_prompt_part2 ++ style ++ gemini_prompt_part3 ++ text ++ gemini_prompt_part4, ?_⟩⟩
  have h : gemini_prompt text style =
      gemini_prompt_part1 ++ style ++ gemini_prompt_part2 ++ style ++
        gemini_prompt_part3 ++ text ++ gemini_prompt_part4 := rfl
  rw [h]
  simp [String.append_assoc]

/-- C9: the response generator of `/api/convert` is total — for every
provider behavior and request, no exception escapes the generator — and the
endpoint always answers with status 200 and media type `text/event-stream`. -/
theorem convert_api_generator_total_status_200
    (provider : String → List GeminiEvent) (request : TextRequest) :
    (convert_api provider request).escaped = none ∧
    (convert_api provider request).status_code = 200 ∧
    (convert_api provider request).media_type = "text/event-stream" := by
  refine ⟨?_, rfl, rfl⟩
  simp [convert_api, convert_tone_with_gemini_stream, catch_all_snd]

/-- C10: over any pure chunk sequence, the generator yields exactly the
subsequence of non-empty provider fragments, in order: fragments equal to
the empty string are silently dropped by the truthiness guard. -/
theorem stream_drops_empty_fragments (texts : List String) (text style : String) :
    convert_tone_with_gemini_stream (fun _ => texts.map GeminiEvent.chunk) text style
      = (texts.filter (fun t => t != ""), none) := by
  simp [convert_tone_with_gemini_stream, stream_body_map_chunk, catch_all,
    nonEmptyFragments_eq_filter]

end ToneTranslator
